import Mathlib

/-!
Verification development for the cosmos-insights client-side filtering and
caching utilities.  The JavaScript sources are shallowly embedded: dynamic JS
values become the inductive `JSVal` (undefined, string, integer number), row
objects become a record of optional-by-default `JSVal` fields, JS arrays
become `List`, selection arguments become `Option (List String)` (`none`
models a non-array argument), and the asynchronous IndexedDB cache becomes a
pure state-passing model with an explicit failure environment.

JS semantics captured here: `Array.prototype.includes` uses strict equality
(a string element never equals a number), `String(x)` stringifies
(`String(undefined) = "undefined"`), `a || b` picks `a` when truthy,
`new Set(xs)` deduplicates by strict equality (we use `List.dedup`, which
keeps a different representative order than JS's insertion order; every use
in the sources is order-insensitive: membership, `size`, emptiness).
-/

/-- A JavaScript value as the filter code manipulates them: `undefined`
(also modelling an absent object field), a string, or an integer number.
The dashboard's identifiers and counters are integers or strings, so the
numeric fragment is modelled by `Int`. -/
inductive JSVal where
  | undef : JSVal
  | str : String → JSVal
  | num : Int → JSVal
deriving DecidableEq, Repr

namespace JSVal

/-- JS truthiness restricted to `JSVal`: `undefined`, `""` and `0` are falsy. -/
def truthy : JSVal → Bool
  | .undef => false
  | .str s => !(s = "")
  | .num n => !(n = 0)

/-- `a || b` in JS: `a` when truthy, otherwise `b`. -/
def jsOr (a b : JSVal) : JSVal :=
  if a.truthy then a else b

/-- `String(v)` in JS (on our value fragment): integers print in decimal,
`undefined` prints as `"undefined"`. -/
def jsString : JSVal → String
  | .undef => "undefined"
  | .str s => s
  | .num n => toString n

/-- `list.includes(v)` for a JS array of strings `list` and an arbitrary
value `v`: strict equality, so only a string member can match. -/
def memStr (l : List String) : JSVal → Bool
  | .str s => l.contains s
  | _ => false

end JSVal

/-- One denormalized data row.  JS objects are duck-typed, so a single record
with every field read anywhere in the filtering code (each defaulting to
`undefined`, i.e. absent) models rows of every table: dimension rows, class
rows, attendance/request stat rows and active-member rows simply leave the
fields they do not carry at `undef`. -/
structure Row where
  AorShortName : JSVal := .undef
  MemberOffice : JSVal := .undef
  OfficeCode : JSVal := .undef
  TrainingTopicId : JSVal := .undef
  TopicId : JSVal := .undef
  TopicName : JSVal := .undef
  InstructorId : JSVal := .undef
  InstructorID : JSVal := .undef
  LocationId : JSVal := .undef
  LocationID : JSVal := .undef
  TrainingClassId : JSVal := .undef
  ClassId : JSVal := .undef
  ClassName : JSVal := .undef
  StartTime : JSVal := .undef
  Name : JSVal := .undef
  TotalAttendances : JSVal := .undef
  TotalRequests : JSVal := .undef
  MemberID : JSVal := .undef
deriving DecidableEq, Repr

/-- A dropdown selection argument: `none` models a non-array value
(`null`/`undefined`), `some l` a JS array of selected string values. -/
abbrev Selection := Option (List String)

namespace Selection

/-- The inactive-selection guard shared by every filter:
`!Array.isArray(sel) || sel.length === 0 || sel.includes("All")`. -/
def inactive : Selection → Bool
  | none => true
  | some l => l.isEmpty || l.contains "All"

/-- A selection actually filters iff it is an array, non-empty, and does not
contain the all-sentinel. -/
def active (s : Selection) : Bool := !s.inactive

/-- The underlying list of an active selection (`[]` for a non-array). -/
def list : Selection → List String
  | none => []
  | some l => l

end Selection

namespace TrainingFilterUtils

/-- `TrainingFilterUtils.filterByAors` (identical to the core
`FilterUtils.filterByAors`): keep rows whose `AorShortName` is in the
selection; inactive selections return the data unchanged. -/
def filterByAors (data : List Row) (selectedAors : Selection) : List Row :=
  match selectedAors with
  | none => data
  | some l =>
    if l.isEmpty || l.contains "All" then data
    else data.filter (fun item => JSVal.memStr l item.AorShortName)

/-- `TrainingFilterUtils.filterByOffices` (identical to the core
`FilterUtils.filterByOffices`): compares
`item.MemberOffice || item.OfficeCode` against the selection. -/
def filterByOffices (data : List Row) (selectedOffices : Selection) : List Row :=
  match selectedOffices with
  | none => data
  | some l =>
    if l.isEmpty || l.contains "All" then data
    else data.filter (fun item => JSVal.memStr l (item.MemberOffice.jsOr item.OfficeCode))

/-- `TrainingFilterUtils.filterByTopics`: compares
`String(item.TrainingTopicId || item.TopicId)` against the selection. -/
def filterByTopics (data : List Row) (selectedTopics : Selection) : List Row :=
  match selectedTopics with
  | none => data
  | some l =>
    if l.isEmpty || l.contains "All" then data
    else data.filter (fun item => l.contains (item.TrainingTopicId.jsOr item.TopicId).jsString)

/-- `TrainingFilterUtils.filterByInstructors`: compares
`String(item.InstructorId || item.InstructorID)` against the selection. -/
def filterByInstructors (data : List Row) (selectedInstructors : Selection) : List Row :=
  match selectedInstructors with
  | none => data
  | some l =>
    if l.isEmpty || l.contains "All" then data
    else data.filter (fun item => l.contains (item.InstructorId.jsOr item.InstructorID).jsString)

/-- `TrainingFilterUtils.filterByLocations`: compares
`String(item.LocationId || item.LocationID)` against the selection. -/
def filterByLocations (data : List Row) (selectedLocations : Selection) : List Row :=
  match selectedLocations with
  | none => data
  | some l =>
    if l.isEmpty || l.contains "All" then data
    else data.filter (fun item => l.contains (item.LocationId.jsOr item.LocationID).jsString)

/-- `TrainingFilterUtils.filterByClasses`: compares
`String(item.TrainingClassId || item.ClassId)` against the selection. -/
def filterByClasses (data : List Row) (selectedClasses : Selection) : List Row :=
  match selectedClasses with
  | none => data
  | some l =>
    if l.isEmpty || l.contains "All" then data
    else data.filter (fun item => l.contains (item.TrainingClassId.jsOr item.ClassId).jsString)

end TrainingFilterUtils

namespace FilterUtils

/-- `FilterUtils.getUniqueIds(data, field)`:
`[...new Set(data.map(item => item[field]).filter(Boolean))]`.  The property
name is passed as an accessor; `List.dedup` models the `Set` (order aside,
see the file comment). -/
def getUniqueIds (data : List Row) (field : Row → JSVal) : List JSVal :=
  ((data.map field).filter JSVal.truthy).dedup

end FilterUtils

/-- The in-memory snapshot side of a `TrainingDataManager` (part_001 variant,
the one `TrainingDropdownHandlers` uses): `cache` maps a dataset key to its
loaded collection (`none` models an unset `this.cache[key]`). -/
structure TrainingDataManager where
  cache : String → Option (List Row)

namespace TrainingDataManager

/-- The constructor's required dataset keys (part_001 variant; a sibling
variant additionally requires `active_members`). -/
def dataKeys : List String :=
  ["aors", "offices", "topics", "instructors",
   "locations", "classes", "request_stats", "attendance_stats"]

/-- `DataManager.getData(key)`: `this.cache[key] || []` (a stored array, even
an empty one, is truthy in JS, so `some l` always yields `l`). -/
def getData (dm : TrainingDataManager) (key : String) : List Row :=
  (dm.cache key).getD []

/-- `DataManager.isReady()`:
`this.dataKeys.every(key => this.cache[key] && this.cache[key].length > 0)`. -/
def isReady (dm : TrainingDataManager) : Bool :=
  dataKeys.all fun key =>
    match dm.cache key with
    | some l => !l.isEmpty
    | none => false

/-- `TrainingDataManager.getFilteredTopics(selectedAors, selectedOffices)`:
filter both stat tables by AOR and office, union the referenced
`TrainingTopicId` values, keep topics whose raw `TopicId` is in that set. -/
def getFilteredTopics (dm : TrainingDataManager)
    (selectedAors selectedOffices : Selection) : List Row :=
  let topics := dm.getData "topics"
  let requestStats := dm.getData "request_stats"
  let attendanceStats := dm.getData "attendance_stats"
  let filteredRequestStats :=
    TrainingFilterUtils.filterByOffices
      (TrainingFilterUtils.filterByAors requestStats selectedAors) selectedOffices
  let filteredAttendanceStats :=
    TrainingFilterUtils.filterByOffices
      (TrainingFilterUtils.filterByAors attendanceStats selectedAors) selectedOffices
  let topicIds :=
    FilterUtils.getUniqueIds filteredRequestStats Row.TrainingTopicId ++
    FilterUtils.getUniqueIds filteredAttendanceStats Row.TrainingTopicId
  topics.filter fun topic => topicIds.contains topic.TopicId

/-- `TrainingDataManager.getFilteredInstructors(selectedAors, selectedOffices)`:
like topics but over attendance stats only, and with the escape hatch
`instructorIds.size === 0 || instructorIds.has(...)`. -/
def getFilteredInstructors (dm : TrainingDataManager)
    (selectedAors selectedOffices : Selection) : List Row :=
  let instructors := dm.getData "instructors"
  let attendanceStats := dm.getData "attendance_stats"
  let filteredStats :=
    TrainingFilterUtils.filterByOffices
      (TrainingFilterUtils.filterByAors attendanceStats selectedAors) selectedOffices
  let instructorIds := FilterUtils.getUniqueIds filteredStats Row.InstructorId
  instructors.filter fun instructor =>
    instructorIds.isEmpty || instructorIds.contains instructor.InstructorID

/-- `TrainingDataManager.getFilteredLocations(selectedAors, selectedOffices,
selectedTopics, selectedInstructors)`: attendance stats filtered by all four
upstream selections, then the same empty-set escape hatch as instructors. -/
def getFilteredLocations (dm : TrainingDataManager)
    (selectedAors selectedOffices selectedTopics selectedInstructors : Selection) :
    List Row :=
  let locations := dm.getData "locations"
  let attendanceStats := dm.getData "attendance_stats"
  let filteredStats :=
    TrainingFilterUtils.filterByInstructors
      (TrainingFilterUtils.filterByTopics
        (TrainingFilterUtils.filterByOffices
          (TrainingFilterUtils.filterByAors attendanceStats selectedAors)
          selectedOffices)
        selectedTopics)
      selectedInstructors
  let locationIds := FilterUtils.getUniqueIds filteredStats Row.LocationId
  locations.filter fun location =>
    locationIds.isEmpty || locationIds.contains location.LocationID

/-- `TrainingDataManager.getFilteredClasses(selectedAors, selectedOffices,
selectedInstructors, selectedLocations, selectedTopics)`: sequential direct
filters on the class table, then, only when the office selection is active,
intersection with the class IDs referenced by office-filtered attendance
stats; returns `(classes, topics)` with the unfiltered topic table. -/
def getFilteredClasses (dm : TrainingDataManager)
    (selectedAors selectedOffices selectedInstructors selectedLocations
      selectedTopics : Selection) : List Row × List Row :=
  let classes := dm.getData "classes"
  let attendanceStats := dm.getData "attendance_stats"
  let topics := dm.getData "topics"
  let filteredClasses :=
    TrainingFilterUtils.filterByTopics
      (TrainingFilterUtils.filterByLocations
        (TrainingFilterUtils.filterByInstructors
          (TrainingFilterUtils.filterByAors classes selectedAors)
          selectedInstructors)
        selectedLocations)
      selectedTopics
  let filteredClasses :=
    match selectedOffices with
    | none => filteredClasses
    | some l =>
      if l.isEmpty || l.contains "All" then filteredClasses
      else
        let filteredStats :=
          TrainingFilterUtils.filterByOffices attendanceStats selectedOffices
        let classIds := FilterUtils.getUniqueIds filteredStats Row.TrainingClassId
        filteredClasses.filter fun c => classIds.contains c.ClassId
  (filteredClasses, topics)

end TrainingDataManager

/-- A dropdown option object `{label, value, disabled?}`.  `label` and
`value` stay `JSVal` because `getClassOptions` passes the raw `ClassId`
as a value and raw row fields as labels. -/
structure OptionItem where
  label : JSVal := .undef
  value : JSVal := .undef
  disabled : Bool := false
deriving DecidableEq, Repr

/-- `FilterUtils.createOptions(data, labelField, valueField, allLabel)`:
empty data gives no options at all; otherwise a synthesized
`{label: allLabel, value: "All"}` entry precedes one option per row, the
value stringified with `String(...)`.  Field names become accessors, and the
function is generic in the row type because `getOfficeOptions` feeds it
freshly mapped `{label, value}` objects. -/
def createOptions {α : Type} (data : List α) (labelF valueF : α → JSVal)
    (allLabel : String) : List OptionItem :=
  if data.isEmpty then []
  else
    { label := .str allLabel, value := .str "All" } ::
      data.map fun item =>
        { label := labelF item, value := .str (valueF item).jsString }

namespace TrainingDropdownHandlers

open TrainingDataManager

/-- `TrainingDropdownHandlers.getAorOptions`.  The source passes the array
`['AorShortName', 'AorName']` as `labelField`; JS coerces that array to the
property key `"AorShortName,AorName"`, which no row carries, so every label
is `undefined`. -/
def getAorOptions (dm : TrainingDataManager) : List OptionItem :=
  if !dm.isReady then []
  else createOptions (dm.getData "aors") (fun _ => JSVal.undef) Row.AorShortName "All AORs"

/-- `TrainingDropdownHandlers.getOfficeOptions`: offices narrowed by active
AOR selections, mapped to `{label: "AOR - CODE", value: OfficeCode}` pairs,
with a selection-dependent all-label. -/
def getOfficeOptions (selectedAors : Selection) (dm : TrainingDataManager) :
    List OptionItem :=
  if !dm.isReady then []
  else
    let offices := dm.getData "offices"
    let offices :=
      if selectedAors.active then
        offices.filter fun office => JSVal.memStr selectedAors.list office.AorShortName
      else offices
    let label :=
      if selectedAors.active then
        "All " ++ String.intercalate "," selectedAors.list ++ " Offices"
      else "All Offices"
    createOptions
      (offices.map fun o =>
        (JSVal.str (o.AorShortName.jsString ++ " - " ++ o.OfficeCode.jsString),
         o.OfficeCode))
      Prod.fst Prod.snd label

/-- `TrainingDropdownHandlers.getTopicOptions`. -/
def getTopicOptions (selectedAors selectedOffices : Selection)
    (dm : TrainingDataManager) : List OptionItem :=
  if !dm.isReady then []
  else
    createOptions (dm.getFilteredTopics selectedAors selectedOffices)
      Row.TopicName Row.TopicId "All Topics"

/-- `TrainingDropdownHandlers.getInstructorOptions`. -/
def getInstructorOptions (selectedAors selectedOffices : Selection)
    (dm : TrainingDataManager) : List OptionItem :=
  if !dm.isReady then []
  else
    createOptions (dm.getFilteredInstructors selectedAors selectedOffices)
      Row.Name Row.InstructorID "All Instructors"

/-- `TrainingDropdownHandlers.getLocationOptions`. -/
def getLocationOptions (selectedAors selectedOffices selectedTopics
    selectedInstructors : Selection) (dm : TrainingDataManager) : List OptionItem :=
  if !dm.isReady then []
  else
    createOptions
      (dm.getFilteredLocations selectedAors selectedOffices selectedTopics
        selectedInstructors)
      Row.Name Row.LocationID "All Locations"

/-- `TrainingDropdownHandlers.getClassOptions`: empty filter results yield a
disabled placeholder option; otherwise an all-label naming the selected
topics, then one option per class with the raw `ClassId` as value. -/
def getClassOptions (selectedAors selectedOffices selectedInstructors
    selectedLocations selectedTopics : Selection) (dm : TrainingDataManager) :
    List OptionItem :=
  if !dm.isReady then []
  else
    let result := dm.getFilteredClasses selectedAors selectedOffices
      selectedInstructors selectedLocations selectedTopics
    let filteredClasses := result.fst
    let topics := result.snd
    if filteredClasses.isEmpty then
      [{ label := .str "No classes found", value := .str "", disabled := true }]
    else
      let allLabel :=
        "All" ++
          (if selectedTopics.active then
            " " ++ String.intercalate ","
              ((topics.filter fun t =>
                  selectedTopics.list.contains t.TopicId.jsString).map
                fun t => t.TopicName.jsString)
          else "") ++ " Classes"
      { label := .str allLabel, value := .str "All" } ::
        filteredClasses.map fun c =>
          { label := .str (c.ClassName.jsString ++ ": " ++ c.StartTime.jsString),
            value := c.ClassId }

end TrainingDropdownHandlers

namespace CacheManager

/-- `CACHE_TTL = 60 * 60 * 1000` milliseconds. -/
def CACHE_TTL : Int := 60 * 60 * 1000

/-- `STORES[dashboard.toUpperCase()] || STORES.SHARED`: the object-store name
a dashboard namespace resolves to; unknown namespaces alias to the shared
store. -/
def storeFor (dashboard : String) : String :=
  let u := dashboard.toUpper
  if u = "TRAINING" then "training_data"
  else if u = "ASSIST" then "assist_data"
  else if u = "COMPLY" then "comply_data"
  else "shared_data"

/-- One IndexedDB record as `set` writes it:
`{key, value, timestamp, dataType, dashboard, size}`.  The `size` field
(`JSON.stringify(value).length`) is byte accounting no cache decision ever
reads; it is not modelled. -/
structure Entry (α : Type) where
  key : String
  value : α
  timestamp : Int
  dataType : String
  dashboard : String
deriving DecidableEq, Repr

/-- The whole `CosmosInsightsCache` database: records addressed by
(object store, key); `put` with an existing key overwrites. -/
def Db (α : Type) : Type := List (String × Entry α)

/-- Look up the record stored under `key` in `storeName`. -/
def dbGet {α : Type} (db : Db α) (storeName key : String) : Option (Entry α) :=
  (db.find? fun e => e.fst = storeName ∧ e.snd.key = key).map Prod.snd

/-- `store.delete(key)`. -/
def dbDelete {α : Type} (db : Db α) (storeName key : String) : Db α :=
  db.filter fun e => !(e.fst = storeName ∧ e.snd.key = key)

/-- `store.put(record)`: overwrite by key path. -/
def dbPut {α : Type} (db : Db α) (storeName : String) (entry : Entry α) : Db α :=
  (storeName, entry) :: dbDelete db storeName entry.key

/-- Which of the asynchronous storage steps fail.  `openFails` models
IndexedDB being unavailable or `indexedDB.open` rejecting (every operation
first awaits `this.init()`, so this covers the uninitialized-store case too);
`readFails`/`writeFails` model a `get`/`put`/`delete` request firing
`onerror`. -/
structure StorageEnv where
  openFails : Bool
  readFails : Bool
  writeFails : Bool
deriving DecidableEq, Repr

/-- The fully reliable storage environment. -/
def StorageEnv.ok : StorageEnv := ⟨false, false, false⟩

/-- `CacheManager.get(key, dashboard)` at wall-clock time `now`, returning
the resolved value and the database afterwards.  An open failure is caught
by the surrounding `try`/`catch` and a request error resolves `null`;
an entry older than `CACHE_TTL` resolves `null` and is deleted (the deletion
itself silently no-ops if its own transaction fails).  No path throws. -/
def get {α : Type} (env : StorageEnv) (db : Db α) (now : Int)
    (key dashboard : String) : Option α × Db α :=
  if env.openFails then (none, db)
  else
    let storeName := storeFor dashboard
    if env.readFails then (none, db)
    else
      match dbGet db storeName key with
      | none => (none, db)
      | some result =>
        let age := now - result.timestamp
        if age > CACHE_TTL then
          (none, if env.writeFails then db else dbDelete db storeName key)
        else (some result.value, db)

/-- `CacheManager.set(key, value, dashboard, dataType)` at time `now`:
records the current timestamp, resolves `true` on success and `false` on an
open or write failure.  No path throws. -/
def set {α : Type} (env : StorageEnv) (db : Db α) (now : Int)
    (key : String) (value : α) (dashboard dataType : String) : Bool × Db α :=
  if env.openFails then (false, db)
  else
    let storeName := storeFor dashboard
    let data : Entry α :=
      { key := key, value := value, timestamp := now, dataType := dataType,
        dashboard := dashboard.toLower }
    if env.writeFails then (false, db)
    else (true, dbPut db storeName data)

end CacheManager

namespace DataManager

/-- JS object assignment `results[key] = v` on the results object, modelled
as a pointwise function update. -/
def objSet (f : String → Option (List Row)) (key : String) (v : List Row) :
    String → Option (List Row) :=
  fun k => if k = key then some v else f k

/-- The cache-consultation step of `loadAllData` for one key: try the
dashboard namespace first, and fall back to the `SHARED` namespace only when
that returned `null` (an empty cached array is truthy in JS, so it blocks
the fallback) and the key is flagged shared.  `cmGet key ns` abstracts
`await this.cacheManager.get(key, ns)`. -/
def cacheProbe (cmGet : String → String → Option (List Row))
    (dashboardName : String) (useSharedCache : Bool)
    (isSharedData : String → Bool) (key : String) : Option (List Row) :=
  match cmGet key dashboardName with
  | some v => some v
  | none =>
    if useSharedCache && isSharedData key then cmGet key "SHARED" else none

/-- The body of the cache loop of `loadAllData` for one key: a non-empty
probe result is adopted into `results`. -/
def cacheStep (cmGet : String → String → Option (List Row)) (dashboardName : String)
    (useSharedCache : Bool) (isSharedData : String → Bool)
    (results : String → Option (List Row)) (key : String) :
    String → Option (List Row) :=
  match cacheProbe cmGet dashboardName useSharedCache isSharedData key with
  | some cached => if 0 < cached.length then objSet results key cached else results
  | none => results

/-- The body of the server loop of `loadAllData` for one key: a non-empty
server collection is adopted into `results` — overwriting whatever the cache
loop put there — and a write-through `(key, namespace, value)` is recorded,
to the shared namespace for shared-flagged keys, else the dashboard one. -/
def serverStep (dashboardName : String) (isSharedData : String → Bool)
    (sd : String → Option (List Row))
    (st : (String → Option (List Row)) × List (String × String × List Row))
    (key : String) :
    (String → Option (List Row)) × List (String × String × List Row) :=
  match sd key with
  | some v =>
    if 0 < v.length then
      (objSet st.fst key v,
       st.snd ++ [(key, if isSharedData key then "SHARED" else dashboardName, v)])
    else st
  | none => st

/-- `DataManager.loadAllData(serverData, useSharedCache)`: the cache loop
over all required keys, then (only when `serverData` is an object) the
server loop.  Returns the `results` object and the ordered list of
write-throughs. -/
def loadAllData (cmGet : String → String → Option (List Row))
    (dataKeys : List String) (dashboardName : String)
    (isSharedData : String → Bool)
    (serverData : Option (String → Option (List Row)))
    (useSharedCache : Bool) :
    (String → Option (List Row)) × List (String × String × List Row) :=
  let afterCache : String → Option (List Row) :=
    dataKeys.foldl (cacheStep cmGet dashboardName useSharedCache isSharedData)
      (fun _ => none)
  match serverData with
  | none => (afterCache, [])
  | some sd =>
    dataKeys.foldl (serverStep dashboardName isSharedData sd) (afterCache, [])

end DataManager

namespace TrainingSummaryUtils

/-- JS `str.split(', ')` over the underlying character list: scan left to
right, breaking at each non-overlapping occurrence of comma-space.
(Implemented by structural recursion so that concrete instances evaluate
inside the kernel.) -/
def splitCommaSpace : List Char → List Char → List (List Char)
  | [], acc => [acc.reverse]
  | ',' :: ' ' :: rest, acc => acc.reverse :: splitCommaSpace rest []
  | c :: rest, acc => splitCommaSpace rest (c :: acc)

/-- JS `str.trim()`: drop whitespace from both ends. -/
def trimChars (cs : List Char) : List Char :=
  ((cs.dropWhile Char.isWhitespace).reverse.dropWhile Char.isWhitespace).reverse

/-- `TrainingSummaryUtils.parseFilterList(filterStr)`: split a filter string
like `"'AOR1', 'AOR2'"` on `", "`, strip apostrophe characters (code 39),
trim each item, and drop empty items; a falsy input gives `[]`. -/
def parseFilterList (filterStr : String) : List String :=
  if filterStr = "" then []
  else
    (((splitCommaSpace filterStr.toList []).map fun item =>
        String.mk (trimChars (item.filter fun c => !(c = Char.ofNat 39)))).filter
      fun item => !(item = ""))

/-- The `{AORs, Offices}` slice of a query-selections object that
`filterActiveMembers` reads; a missing property is `none`
(`selections.AORs || ''` turns it into the empty string). -/
structure QuerySelections where
  AORs : Option String := none
  Offices : Option String := none
deriving DecidableEq, Repr

/-- `TrainingSummaryUtils.filterActiveMembers(activeMembers, offices,
selections)`: explicit offices win; otherwise a non-empty AOR list is
resolved through the office table to a deduplicated set of office codes; the
member filter is applied only when the resulting set is non-empty. -/
def filterActiveMembers (activeMembers : Option (List Row))
    (offices : Option (List Row)) (selections : Option QuerySelections) :
    List Row :=
  match activeMembers with
  | none => []
  | some members =>
    match selections with
    | none => members
    | some sel =>
      let aorList := parseFilterList (sel.AORs.getD "")
      let officeList := parseFilterList (sel.Offices.getD "")
      let officesToFilter : List JSVal :=
        if 0 < officeList.length then officeList.map JSVal.str
        else
          if 0 < aorList.length then
            match offices with
            | some offs =>
              ((offs.filter fun office =>
                  JSVal.memStr aorList office.AorShortName).map Row.OfficeCode).dedup
            | none => []
          else []
      if 0 < officesToFilter.length then
        members.filter fun member => officesToFilter.contains member.OfficeCode
      else members

/-- `parseInt(x) || 0` on our value fragment: an integer passes through,
a string is parsed as JS `parseInt` does (trim, optional sign, longest
decimal-digit prefix; `NaN` when there is none), anything else — including
`undefined` and `NaN` — collapses to `0`. -/
def jsParseIntOr0 : JSVal → Int
  | .num n => n
  | .undef => 0
  | .str s =>
    let t := s.trim
    let (sign, rest) :=
      if t.startsWith "-" then ((-1 : Int), t.drop 1)
      else if t.startsWith "+" then ((1 : Int), t.drop 1)
      else ((1 : Int), t)
    let digits := rest.takeWhile Char.isDigit
    match digits.toNat? with
    | some n => sign * n
    | none => 0

/-- The metrics object `calculateMetrics` fills in. -/
structure Metrics where
  totalClasses : Nat
  totalAttendances : Int
  totalRequests : Int
  activeMembers : Nat
deriving DecidableEq, Repr

/-- `TrainingSummaryUtils.calculateMetrics(classes, attendance, requests,
activeMembers)`: class row count; summed `TotalAttendances`
(`attendance[0].hasOwnProperty(...)` — presence probed on the first row,
modelled as the field not being `undefined`) with row-count fallback; the
same for `TotalRequests`; distinct `MemberID` count.  Non-array arguments
(`none`) leave the zero defaults. -/
def calculateMetrics (classes attendance requests activeMembers : Option (List Row)) :
    Metrics :=
  { totalClasses :=
      match classes with
      | some l => l.length
      | none => 0
    totalAttendances :=
      match attendance with
      | none => 0
      | some [] => 0
      | some (h :: t) =>
        if !(h.TotalAttendances = .undef) then
          (h :: t).foldl (fun sum att => sum + jsParseIntOr0 att.TotalAttendances) 0
        else (h :: t).length
    totalRequests :=
      match requests with
      | none => 0
      | some [] => 0
      | some (h :: t) =>
        if !(h.TotalRequests = .undef) then
          (h :: t).foldl (fun sum req => sum + jsParseIntOr0 req.TotalRequests) 0
        else (h :: t).length
    activeMembers :=
      match activeMembers with
      | none => 0
      | some l => ((l.map Row.MemberID).dedup).length }

end TrainingSummaryUtils

namespace FilterUtils

/-- The core `FilterUtils.filterByAors` (src/assets/js/core/filter-utils.js),
textually identical to `TrainingFilterUtils.filterByAors`. -/
def filterByAors (data : List Row) (selectedAors : Selection) : List Row :=
  match selectedAors with
  | none => data
  | some l =>
    if l.isEmpty || l.contains "All" then data
    else data.filter (fun item => JSVal.memStr l item.AorShortName)

/-- The core `FilterUtils.filterByOffices`, textually identical to
`TrainingFilterUtils.filterByOffices`. -/
def filterByOffices (data : List Row) (selectedOffices : Selection) : List Row :=
  match selectedOffices with
  | none => data
  | some l =>
    if l.isEmpty || l.contains "All" then data
    else data.filter (fun item => JSVal.memStr l (item.MemberOffice.jsOr item.OfficeCode))

end FilterUtils

/-- A `TrainingDataManager` whose snapshot holds exactly the eight required
collections: convenience constructor for concrete instances. -/
def mkTrainingDm (aors offices topics instructors locations classes
    requestStats attendanceStats : List Row) : TrainingDataManager :=
  ⟨fun key =>
    if key = "aors" then some aors
    else if key = "offices" then some offices
    else if key = "topics" then some topics
    else if key = "instructors" then some instructors
    else if key = "locations" then some locations
    else if key = "classes" then some classes
    else if key = "request_stats" then some requestStats
    else if key = "attendance_stats" then some attendanceStats
    else none⟩

/-- Stated from the spec sentence for the class derivation: the set (here: a
list; only membership is used) of class IDs referenced by attendance-stat
rows matching the selected offices. -/
def specOfficeReachableClassIds (attendanceStats : List Row)
    (selectedOffices : Selection) : List JSVal :=
  ((attendanceStats.filter fun s =>
      JSVal.memStr selectedOffices.list (s.MemberOffice.jsOr s.OfficeCode)).map
    Row.TrainingClassId).filter JSVal.truthy

/-- Stated from the claim for `getFilteredClasses`: a class survives iff it
matches every active equality-in-selection predicate on `AorShortName`,
`InstructorId`, `LocationId`, `TopicId`, and — only when the office
selection is active — its `ClassId` is among the office-reachable class
IDs. -/
def specClassKeep (selectedAors selectedInstructors selectedLocations
    selectedTopics selectedOffices : Selection) (attendanceStats : List Row)
    (c : Row) : Bool :=
  (!selectedAors.active || JSVal.memStr selectedAors.list c.AorShortName) &&
  (!selectedInstructors.active || selectedInstructors.list.contains c.InstructorId.jsString) &&
  (!selectedLocations.active || selectedLocations.list.contains c.LocationId.jsString) &&
  (!selectedTopics.active || selectedTopics.list.contains c.TopicId.jsString) &&
  (!selectedOffices.active ||
    (specOfficeReachableClassIds attendanceStats selectedOffices).contains c.ClassId)

/-- `some` collections with at least one row, `none` otherwise: the
"supplies non-empty content" test of `loadAllData`
(`x && x.length > 0`). -/
def nonEmptyContent : Option (List Row) → Option (List Row)
  | some l => if 0 < l.length then some l else none
  | none => none


/-- Fixture: a class row under AOR EAST with numeric identifiers. -/
def classEast : Row :=
  { AorShortName := .str "EAST", InstructorId := .num 3, LocationId := .num 4,
    TopicId := .num 7, ClassId := .num 100 }

/-- Fixture: a class row under AOR WEST. -/
def classWest : Row :=
  { AorShortName := .str "WEST", InstructorId := .num 3, LocationId := .num 4,
    TopicId := .num 7, ClassId := .num 200 }

/-- Fixture: an attendance-stat row for office O1 referencing class 100. -/
def statO1 : Row := { OfficeCode := .str "O1", TrainingClassId := .num 100 }

/-- Fixture manager: two classes, one attendance-stat row. -/
def dmFixture : TrainingDataManager :=
  mkTrainingDm [] [] [] [] [] [classEast, classWest] [] [statO1]

/-- Fixture: a class row whose key is the number 7. -/
def classNum7 : Row := { ClassId := .num 7, AorShortName := .str "EAST" }

/-- Fixture: an attendance-stat row referencing class id as the string "7". -/
def statStr7 : Row := { OfficeCode := .str "O1", TrainingClassId := .str "7" }

/-- Fixture: a topic row whose key is the number 7. -/
def topicNum7 : Row := { TopicId := .num 7, TopicName := .str "Safety" }

/-- Fixture: an attendance-stat row referencing topic id as the string "7". -/
def statTopicStr7 : Row := { TrainingTopicId := .str "7" }

/-- Fixture manager for the raw class-ID intersection check. -/
def dmClassIdRaw : TrainingDataManager :=
  mkTrainingDm [] [] [] [] [] [classNum7] [] [statStr7]

/-- Fixture manager for the raw topic-reachability check. -/
def dmTopicRaw : TrainingDataManager :=
  mkTrainingDm [] [] [topicNum7] [] [] [] [] [statTopicStr7]

/-- Fixture: one instructor, location and topic with no stat rows at all. -/
def dmNoStats : TrainingDataManager :=
  mkTrainingDm [] [] [{ TopicId := .num 7, TopicName := .str "T" }]
    [{ InstructorID := .num 9, Name := .str "I" }]
    [{ LocationID := .num 5, Name := .str "L" }] [] [] []

/-- Fixture: a manager with nothing loaded (`isReady` is false). -/
def dmEmpty : TrainingDataManager := ⟨fun _ => none⟩

/-- Fixture: an active member working at office M1. -/
def memberM1 : Row := { MemberID := .num 1, OfficeCode := .str "M1" }

/-- Fixture: office W1 under AOR WEST. -/
def officeWest : Row := { OfficeCode := .str "W1", AorShortName := .str "WEST" }

/-- Fixture: an AOR row for EAST. -/
def aorEast : Row := { AorShortName := .str "EAST" }

/-- Fixture: an AOR row for WEST. -/
def aorWest : Row := { AorShortName := .str "WEST" }

/-- Fixture cache-manager lookup: the TRAINING namespace already caches the
`aors` collection `[aorEast]`. -/
def cmGetFixture : String → String → Option (List Row) :=
  fun key ns => if key = "aors" ∧ ns = "TRAINING" then some [aorEast] else none

/-- Fixture bulk payload supplying a different `aors` collection. -/
def serverFixture : String → Option (List Row) :=
  fun key => if key = "aors" then some [aorWest] else none

theorem TrainingFilterUtils.filterByAors_eq (data : List Row) (sel : Selection) :
    TrainingFilterUtils.filterByAors data sel =
      data.filter (fun r => !sel.active || JSVal.memStr sel.list r.AorShortName) := by
  cases sel with
  | none => simp [TrainingFilterUtils.filterByAors, Selection.active, Selection.inactive]
  | some l =>
    simp only [TrainingFilterUtils.filterByAors, Selection.active, Selection.inactive,
      Selection.list, Bool.not_not]
    by_cases h : (l.isEmpty || l.contains "All") = true
    · simp only [h, Bool.true_or]
      simp
    · simp only [Bool.not_eq_true] at h
      simp only [h, Bool.false_or]
      simp

theorem TrainingFilterUtils.filterByOffices_eq (data : List Row) (sel : Selection) :
    TrainingFilterUtils.filterByOffices data sel =
      data.filter
        (fun r => !sel.active || JSVal.memStr sel.list (r.MemberOffice.jsOr r.OfficeCode)) := by
  cases sel with
  | none => simp [TrainingFilterUtils.filterByOffices, Selection.active, Selection.inactive]
  | some l =>
    simp only [TrainingFilterUtils.filterByOffices, Selection.active, Selection.inactive,
      Selection.list, Bool.not_not]
    by_cases h : (l.isEmpty || l.contains "All") = true
    · simp only [h, Bool.true_or]
      simp
    · simp only [Bool.not_eq_true] at h
      simp only [h, Bool.false_or]
      simp

theorem TrainingFilterUtils.filterByTopics_eq (data : List Row) (sel : Selection) :
    TrainingFilterUtils.filterByTopics data sel =
      data.filter
        (fun r =>
          !sel.active || sel.list.contains (r.TrainingTopicId.jsOr r.TopicId).jsString) := by
  cases sel with
  | none => simp [TrainingFilterUtils.filterByTopics, Selection.active, Selection.inactive]
  | some l =>
    simp only [TrainingFilterUtils.filterByTopics, Selection.active, Selection.inactive,
      Selection.list, Bool.not_not]
    by_cases h : (l.isEmpty || l.contains "All") = true
    · simp only [h, Bool.true_or]
      simp
    · simp only [Bool.not_eq_true] at h
      simp only [h, Bool.false_or]
      simp

theorem TrainingFilterUtils.filterByInstructors_eq (data : List Row) (sel : Selection) :
    TrainingFilterUtils.filterByInstructors data sel =
      data.filter
        (fun r =>
          !sel.active || sel.list.contains (r.InstructorId.jsOr r.InstructorID).jsString) := by
  cases sel with
  | none => simp [TrainingFilterUtils.filterByInstructors, Selection.active, Selection.inactive]
  | some l =>
    simp only [TrainingFilterUtils.filterByInstructors, Selection.active, Selection.inactive,
      Selection.list, Bool.not_not]
    by_cases h : (l.isEmpty || l.contains "All") = true
    · simp only [h, Bool.true_or]
      simp
    · simp only [Bool.not_eq_true] at h
      simp only [h, Bool.false_or]
      simp

theorem TrainingFilterUtils.filterByLocations_eq (data : List Row) (sel : Selection) :
    TrainingFilterUtils.filterByLocations data sel =
      data.filter
        (fun r =>
          !sel.active || sel.list.contains (r.LocationId.jsOr r.LocationID).jsString) := by
  cases sel with
  | none => simp [TrainingFilterUtils.filterByLocations, Selection.active, Selection.inactive]
  | some l =>
    simp only [TrainingFilterUtils.filterByLocations, Selection.active, Selection.inactive,
      Selection.list, Bool.not_not]
    by_cases h : (l.isEmpty || l.contains "All") = true
    · simp only [h, Bool.true_or]
      simp
    · simp only [Bool.not_eq_true] at h
      simp only [h, Bool.false_or]
      simp

/-- C2: for every data collection and every inactive selection argument —
not an array (`none`), an empty array, or an array containing the
all-sentinel `"All"` — each of the six per-dimension filter functions (and
the two shared core variants) returns its input collection unchanged. -/
theorem inactive_selection_filters_are_identity (data : List Row) (sel : Selection)
    (h : sel.inactive = true) :
    TrainingFilterUtils.filterByAors data sel = data ∧
    TrainingFilterUtils.filterByOffices data sel = data ∧
    TrainingFilterUtils.filterByTopics data sel = data ∧
    TrainingFilterUtils.filterByInstructors data sel = data ∧
    TrainingFilterUtils.filterByLocations data sel = data ∧
    TrainingFilterUtils.filterByClasses data sel = data ∧
    FilterUtils.filterByAors data sel = data ∧
    FilterUtils.filterByOffices data sel = data := by
  cases sel with
  | none =>
    exact ⟨rfl, rfl, rfl, rfl, rfl, rfl, rfl, rfl⟩
  | some l =>
    have hl : (l.isEmpty || l.contains "All") = true := by
      simpa [Selection.inactive] using h
    refine ⟨?_, ?_, ?_, ?_, ?_, ?_, ?_, ?_⟩ <;>
      · simp only [TrainingFilterUtils.filterByAors, TrainingFilterUtils.filterByOffices,
          TrainingFilterUtils.filterByTopics, TrainingFilterUtils.filterByInstructors,
          TrainingFilterUtils.filterByLocations, TrainingFilterUtils.filterByClasses,
          FilterUtils.filterByAors, FilterUtils.filterByOffices]
        simp only [hl]
        simp

/-- Witness for C2 at a concrete row and the all-sentinel selection. -/
theorem inactive_selection_filters_are_identity_witness :
    (Selection.inactive (some ["All"]) = true) ∧
    TrainingFilterUtils.filterByAors [{ AorShortName := .str "EAST" }] (some ["All"]) =
      [{ AorShortName := .str "EAST" }] := by
  refine ⟨by decide, ?_⟩
  exact (inactive_selection_filters_are_identity
    [{ AorShortName := .str "EAST" }] (some ["All"]) (by decide)).1

theorem dedup_contains {α : Type} [DecidableEq α] (l : List α) (a : α) :
    l.dedup.contains a = l.contains a := by
  simp [List.elem_iff]

theorem TrainingFilterUtils.filterByOffices_active (data : List Row) (sel : Selection)
    (h : sel.active = true) :
    TrainingFilterUtils.filterByOffices data sel =
      data.filter (fun r => JSVal.memStr sel.list (r.MemberOffice.jsOr r.OfficeCode)) := by
  rw [TrainingFilterUtils.filterByOffices_eq]
  refine List.filter_congr fun r _ => ?_
  simp [h]

/-- C1: `getFilteredClasses` returns exactly the classes that satisfy every
active equality-in-selection predicate on `AorShortName`, `InstructorId`,
`LocationId`, `TopicId`, intersected — only when the office selection is
active — with the class IDs referenced by attendance-stat rows matching the
selected offices, together with the full unfiltered topic table.  The
hypothesis pins the class rows to class shape: no stat-style
`TrainingTopicId` field, and truthy `InstructorId`/`LocationId` (otherwise
the shared filter helpers would read the `InstructorID`/`LocationID`
fallback fields instead). -/
theorem getFilteredClasses_spec (dm : TrainingDataManager)
    (selectedAors selectedOffices selectedInstructors selectedLocations
      selectedTopics : Selection)
    (hclass : ∀ c ∈ dm.getData "classes",
      c.TrainingTopicId = .undef ∧ c.InstructorId.truthy = true ∧
        c.LocationId.truthy = true) :
    (dm.getFilteredClasses selectedAors selectedOffices selectedInstructors
        selectedLocations selectedTopics).fst =
      (dm.getData "classes").filter
        (specClassKeep selectedAors selectedInstructors selectedLocations
          selectedTopics selectedOffices (dm.getData "attendance_stats")) ∧
    (dm.getFilteredClasses selectedAors selectedOffices selectedInstructors
        selectedLocations selectedTopics).snd = dm.getData "topics" := by
  refine ⟨?_, rfl⟩
  have hdirect :
      TrainingFilterUtils.filterByTopics
        (TrainingFilterUtils.filterByLocations
          (TrainingFilterUtils.filterByInstructors
            (TrainingFilterUtils.filterByAors (dm.getData "classes") selectedAors)
            selectedInstructors)
          selectedLocations)
        selectedTopics =
      (dm.getData "classes").filter fun c =>
        (!selectedAors.active || JSVal.memStr selectedAors.list c.AorShortName) &&
        (!selectedInstructors.active ||
          selectedInstructors.list.contains c.InstructorId.jsString) &&
        (!selectedLocations.active ||
          selectedLocations.list.contains c.LocationId.jsString) &&
        (!selectedTopics.active || selectedTopics.list.contains c.TopicId.jsString) := by
    rw [TrainingFilterUtils.filterByAors_eq, TrainingFilterUtils.filterByInstructors_eq,
      TrainingFilterUtils.filterByLocations_eq, TrainingFilterUtils.filterByTopics_eq,
      List.filter_filter, List.filter_filter, List.filter_filter]
    refine List.filter_congr fun c hc => ?_
    obtain ⟨h1, h2, h3⟩ := hclass c hc
    rw [show c.TrainingTopicId.jsOr c.TopicId = c.TopicId by simp [JSVal.jsOr, h1, JSVal.truthy],
      show c.InstructorId.jsOr c.InstructorID = c.InstructorId by simp [JSVal.jsOr, h2],
      show c.LocationId.jsOr c.LocationID = c.LocationId by simp [JSVal.jsOr, h3]]
    set a := !selectedAors.active || JSVal.memStr selectedAors.list c.AorShortName with ha
    set b := !selectedInstructors.active ||
      selectedInstructors.list.contains c.InstructorId.jsString with hb
    set d := !selectedLocations.active ||
      selectedLocations.list.contains c.LocationId.jsString with hd
    set e := !selectedTopics.active || selectedTopics.list.contains c.TopicId.jsString with he
    cases a <;> cases b <;> cases d <;> cases e <;> rfl
  show (match selectedOffices with
    | none =>
      TrainingFilterUtils.filterByTopics
        (TrainingFilterUtils.filterByLocations
          (TrainingFilterUtils.filterByInstructors
            (TrainingFilterUtils.filterByAors (dm.getData "classes") selectedAors)
            selectedInstructors)
          selectedLocations)
        selectedTopics
    | some l =>
      if l.isEmpty || l.contains "All" then
        TrainingFilterUtils.filterByTopics
          (TrainingFilterUtils.filterByLocations
            (TrainingFilterUtils.filterByInstructors
              (TrainingFilterUtils.filterByAors (dm.getData "classes") selectedAors)
              selectedInstructors)
            selectedLocations)
          selectedTopics
      else
        (TrainingFilterUtils.filterByTopics
          (TrainingFilterUtils.filterByLocations
            (TrainingFilterUtils.filterByInstructors
              (TrainingFilterUtils.filterByAors (dm.getData "classes") selectedAors)
              selectedInstructors)
            selectedLocations)
          selectedTopics).filter fun c =>
            (FilterUtils.getUniqueIds
              (TrainingFilterUtils.filterByOffices (dm.getData "attendance_stats")
                selectedOffices)
              Row.TrainingClassId).contains c.ClassId) = _
  cases selectedOffices with
  | none =>
    dsimp only
    rw [hdirect]
    refine List.filter_congr fun c hc => ?_
    simp only [specClassKeep, Selection.active, Selection.inactive, Bool.not_not,
      Bool.not_true, Bool.not_false, Bool.true_or, Bool.and_true]
  | some l =>
    dsimp only
    by_cases h : (l.isEmpty || l.contains "All") = true
    · rw [if_pos h, hdirect]
      refine List.filter_congr fun c hc => ?_
      simp only [specClassKeep, Selection.active, Selection.inactive, Bool.not_not, h,
        Bool.not_true, Bool.not_false, Bool.true_or, Bool.and_true]
    · have hb : (l.isEmpty || l.contains "All") = false := by
        cases hx : (l.isEmpty || l.contains "All") with
        | true => exact absurd hx h
        | false => rfl
      have ha : Selection.active (some l) = true := by
        simp only [Selection.active, Selection.inactive, hb]
        rfl
      rw [if_neg h, hdirect, List.filter_filter]
      refine List.filter_congr fun c hc => ?_
      rw [TrainingFilterUtils.filterByOffices_active _ _ ha]
      simp only [FilterUtils.getUniqueIds, dedup_contains]
      simp only [specClassKeep, ha, Bool.not_true, Bool.false_or]
      simp only [specOfficeReachableClassIds]
      set a := !selectedAors.active || JSVal.memStr selectedAors.list c.AorShortName
      set b := !selectedInstructors.active ||
        selectedInstructors.list.contains c.InstructorId.jsString
      set d := !selectedLocations.active ||
        selectedLocations.list.contains c.LocationId.jsString
      set e := !selectedTopics.active || selectedTopics.list.contains c.TopicId.jsString
      set o := ((((dm.getData "attendance_stats").filter fun s =>
        JSVal.memStr (Selection.list (some l)) (s.MemberOffice.jsOr s.OfficeCode)).map
          Row.TrainingClassId).filter JSVal.truthy).contains c.ClassId
      cases a <;> cases b <;> cases d <;> cases e <;> cases o <;> rfl

/-- Witness for C1: on `dmFixture` with every selection active, the filtered
classes are exactly `[classEast]` and agree with the claim's predicate. -/
theorem getFilteredClasses_spec_witness :
    (dmFixture.getFilteredClasses (some ["EAST"]) (some ["O1"]) (some ["3"])
        (some ["4"]) (some ["7"])).fst =
      (dmFixture.getData "classes").filter
        (specClassKeep (some ["EAST"]) (some ["3"]) (some ["4"]) (some ["7"])
          (some ["O1"]) (dmFixture.getData "attendance_stats")) ∧
    (dmFixture.getFilteredClasses (some ["EAST"]) (some ["O1"]) (some ["3"])
        (some ["4"]) (some ["7"])).fst = [classEast] := by
  exact ⟨(getFilteredClasses_spec dmFixture (some ["EAST"]) (some ["O1"]) (some ["3"])
    (some ["4"]) (some ["7"]) (by decide)).1, by decide⟩

/-- C3 counterexample: the reachability comparisons do NOT stringify.  A
class whose key is the number 7 is dropped by the class-ID intersection of
`getFilteredClasses` although the office-matching attendance-stat row
references exactly the string representation "7"; likewise a topic with
numeric key 7 is dropped by the topic-reachability computation of
`getFilteredTopics` although the stat table references "7". -/
theorem id_stringification_counterexample :
    (dmClassIdRaw.getData "classes" = [classNum7] ∧ classNum7.ClassId = .num 7 ∧
      statStr7.TrainingClassId = .str "7" ∧
      TrainingFilterUtils.filterByOffices (dmClassIdRaw.getData "attendance_stats")
        (some ["O1"]) = [statStr7]) ∧
    (dmClassIdRaw.getFilteredClasses none (some ["O1"]) none none none).fst = [] ∧
    (dmTopicRaw.getData "topics" = [topicNum7] ∧ topicNum7.TopicId = .num 7 ∧
      statTopicStr7.TrainingTopicId = .str "7") ∧
    dmTopicRaw.getFilteredTopics none none = [] := by
  decide

/-- C3 amended: identifier comparisons against a *selection* stringify the
row identifier first (`filterByTopics`, `filterByInstructors`,
`filterByLocations`, `filterByClasses`, hence also the direct class filters
of `getFilteredClasses`), so a row with non-zero numeric key `n` matches the
selection `[toString n]`; the *reachability-set* membership tests
(`getFilteredTopics` and the class-ID intersection of `getFilteredClasses`)
compare raw unstringified values, so there a numeric key never matches a
stat row referencing its string representation. -/
theorem id_stringification_amended (n : Int) (r t s c s2 : Row)
    (hAll : ¬(toString n = "All")) (hne : ¬(toString n = ""))
    (hn : ¬(n = 0)) :
    (r.TrainingTopicId = .undef → r.TopicId = .num n →
      TrainingFilterUtils.filterByTopics [r] (some [toString n]) = [r]) ∧
    (r.InstructorId = .num n →
      TrainingFilterUtils.filterByInstructors [r] (some [toString n]) = [r]) ∧
    (r.LocationId = .num n →
      TrainingFilterUtils.filterByLocations [r] (some [toString n]) = [r]) ∧
    (r.TrainingClassId = .undef → r.ClassId = .num n →
      TrainingFilterUtils.filterByClasses [r] (some [toString n]) = [r]) ∧
    (t.TopicId = .num n → s.TrainingTopicId = .str (toString n) →
      TrainingDataManager.getFilteredTopics (mkTrainingDm [] [] [t] [] [] [] [] [s])
        none none = []) ∧
    (c.ClassId = .num n → s2.MemberOffice = .undef → s2.OfficeCode = .str "O1" →
      s2.TrainingClassId = .str (toString n) →
      (TrainingDataManager.getFilteredClasses (mkTrainingDm [] [] [] [] [] [c] [] [s2])
        none (some ["O1"]) none none none).fst = []) := by
  refine ⟨?_, ?_, ?_, ?_, ?_, ?_⟩
  · intro h1 h2
    simp [TrainingFilterUtils.filterByTopics, h1, h2, JSVal.jsOr, JSVal.truthy,
      JSVal.jsString, hAll]
  · intro h1
    simp [TrainingFilterUtils.filterByInstructors, h1, JSVal.jsOr, JSVal.truthy,
      JSVal.jsString, hAll, hn]
  · intro h1
    simp [TrainingFilterUtils.filterByLocations, h1, JSVal.jsOr, JSVal.truthy,
      JSVal.jsString, hAll, hn]
  · intro h1 h2
    simp [TrainingFilterUtils.filterByClasses, h1, h2, JSVal.jsOr, JSVal.truthy,
      JSVal.jsString, hAll]
  · intro h1 h2
    simp [TrainingDataManager.getFilteredTopics, TrainingDataManager.getData,
      mkTrainingDm, TrainingFilterUtils.filterByAors, TrainingFilterUtils.filterByOffices,
      FilterUtils.getUniqueIds, h1, h2, JSVal.truthy, hne]
  · intro h1 h2 h3 h4
    simp [TrainingDataManager.getFilteredClasses, TrainingDataManager.getData,
      mkTrainingDm, TrainingFilterUtils.filterByAors,
      TrainingFilterUtils.filterByInstructors, TrainingFilterUtils.filterByLocations,
      TrainingFilterUtils.filterByTopics, TrainingFilterUtils.filterByOffices,
      FilterUtils.getUniqueIds, h1, h2, h3, h4, JSVal.jsOr, JSVal.truthy, hne]

/-- Witness for the amended C3 at `n = 7`. -/
theorem id_stringification_amended_witness :
    TrainingFilterUtils.filterByTopics [{ TopicId := .num 7 }] (some ["7"]) =
      [{ TopicId := .num 7 }] ∧
    TrainingDataManager.getFilteredTopics
      (mkTrainingDm [] [] [topicNum7] [] [] [] [] [statTopicStr7]) none none = [] := by
  have h := id_stringification_amended 7 { TopicId := .num 7 } topicNum7 statTopicStr7
    classNum7 statStr7 (by decide) (by decide) (by decide)
  exact ⟨h.1 (by decide) (by decide), h.2.2.2.2.1 (by decide) (by decide)⟩

theorem CacheManager.dbGet_dbPut_same {α : Type} (db : CacheManager.Db α)
    (s : String) (e : CacheManager.Entry α) :
    CacheManager.dbGet (CacheManager.dbPut db s e) s e.key = some e := by
  simp only [CacheManager.dbGet, CacheManager.dbPut]
  rw [List.find?_cons_of_pos]
  · rfl
  · simp

theorem CacheManager.dbGet_dbDelete_same {α : Type} (db : CacheManager.Db α)
    (s k : String) :
    CacheManager.dbGet (CacheManager.dbDelete db s k) s k = none := by
  simp only [CacheManager.dbGet, CacheManager.dbDelete]
  rw [Option.map_eq_none', List.find?_eq_none]
  intro x hx
  have hmem := List.of_mem_filter hx
  simp at hmem ⊢
  tauto

/-- C4: with reliable storage, `set(k, v, ns)` followed by `get(k, ns)` at a
later time returns exactly `v` while `now - storedTimestamp` has not
exceeded the TTL (3,600,000 ms); once it exceeds the TTL, `get` returns
absent (`null`) and as a side effect deletes the stale entry from the
store. -/
theorem cache_set_get_roundtrip {α : Type} (db : CacheManager.Db α)
    (now later : Int) (key ns dataType : String) (v : α) :
    ((later - now ≤ CacheManager.CACHE_TTL) →
      CacheManager.get CacheManager.StorageEnv.ok
          (CacheManager.set CacheManager.StorageEnv.ok db now key v ns dataType).snd
          later key ns =
        (some v,
          (CacheManager.set CacheManager.StorageEnv.ok db now key v ns dataType).snd)) ∧
    (CacheManager.CACHE_TTL < later - now →
      (CacheManager.get CacheManager.StorageEnv.ok
          (CacheManager.set CacheManager.StorageEnv.ok db now key v ns dataType).snd
          later key ns).fst = none ∧
      CacheManager.dbGet
        (CacheManager.get CacheManager.StorageEnv.ok
            (CacheManager.set CacheManager.StorageEnv.ok db now key v ns dataType).snd
            later key ns).snd
        (CacheManager.storeFor ns) key = none) := by
  have hset :
      (CacheManager.set CacheManager.StorageEnv.ok db now key v ns dataType).snd =
        CacheManager.dbPut db (CacheManager.storeFor ns)
          { key := key, value := v, timestamp := now, dataType := dataType,
            dashboard := ns.toLower } := rfl
  have hget :
      CacheManager.dbGet
          (CacheManager.set CacheManager.StorageEnv.ok db now key v ns dataType).snd
          (CacheManager.storeFor ns) key =
        some { key := key, value := v, timestamp := now, dataType := dataType,
               dashboard := ns.toLower } := by
    rw [hset]
    exact CacheManager.dbGet_dbPut_same db (CacheManager.storeFor ns) _
  have hof : CacheManager.StorageEnv.ok.openFails = false := rfl
  have hrf : CacheManager.StorageEnv.ok.readFails = false := rfl
  have hwf : CacheManager.StorageEnv.ok.writeFails = false := rfl
  constructor
  · intro h
    simp only [CacheManager.get, hof, hrf, Bool.false_eq_true, if_false, hget]
    rw [if_neg (not_lt.mpr h)]
  · intro h
    simp only [CacheManager.get, hof, hrf, hwf, Bool.false_eq_true, if_false, hget]
    rw [if_pos h]
    exact ⟨rfl, CacheManager.dbGet_dbDelete_same _ _ _⟩

/-- Witness for C4: a value cached at time 0 is returned at the TTL boundary
and gone 3,600,001 ms later. -/
theorem cache_set_get_roundtrip_witness :
    ((3600000 : Int) - 0 ≤ CacheManager.CACHE_TTL) ∧
    CacheManager.get CacheManager.StorageEnv.ok
        (CacheManager.set CacheManager.StorageEnv.ok ([] : CacheManager.Db Nat) 0
          "aors" 42 "TRAINING" "data").snd 3600000 "aors" "TRAINING" =
      (some 42,
        (CacheManager.set CacheManager.StorageEnv.ok ([] : CacheManager.Db Nat) 0
          "aors" 42 "TRAINING" "data").snd) ∧
    (CacheManager.get CacheManager.StorageEnv.ok
        (CacheManager.set CacheManager.StorageEnv.ok ([] : CacheManager.Db Nat) 0
          "aors" 42 "TRAINING" "data").snd 3600001 "aors" "TRAINING").fst = none := by
  refine ⟨by decide, ?_, ?_⟩
  · exact (cache_set_get_roundtrip ([] : CacheManager.Db Nat) 0 3600000 "aors"
      "TRAINING" "data" 42).1 (by decide)
  · exact ((cache_set_get_roundtrip ([] : CacheManager.Db Nat) 0 3600001 "aors"
      "TRAINING" "data" 42).2 (by decide)).1

/-- C8: under every storage failure mode — store unavailable / open error
(`openFails`; every operation first awaits `init`, so this also covers calls
made before the storage was initialized), read-transaction error
(`readFails`), write-transaction error (`writeFails`) — `get` resolves to
absent (`null`) and `set` resolves to `false`.  Both model functions are
total (`Option`/`Bool`-valued, no exception type), mirroring that no cache
operation throws to its caller. -/
theorem cache_failsoft {α : Type} (env : CacheManager.StorageEnv)
    (db : CacheManager.Db α) (now : Int) (key ns dataType : String) (v : α) :
    (env.openFails = true ∨ env.readFails = true →
      (CacheManager.get env db now key ns).fst = none) ∧
    (env.openFails = true ∨ env.writeFails = true →
      (CacheManager.set env db now key v ns dataType).fst = false) := by
  obtain ⟨o, r, w⟩ := env
  refine ⟨?_, ?_⟩
  · intro h
    cases o with
    | true => rfl
    | false =>
      rcases h with h | h
      · exact absurd h (by simp)
      · simp only [] at h
        simp [CacheManager.get, h]
  · intro h
    cases o with
    | true => rfl
    | false =>
      rcases h with h | h
      · exact absurd h (by simp)
      · simp only [] at h
        simp [CacheManager.set, h]

/-- Witness for C8 at each failure flag. -/
theorem cache_failsoft_witness :
    (CacheManager.get ⟨true, false, false⟩ ([] : CacheManager.Db Nat) 0 "aors"
      "TRAINING").fst = none ∧
    (CacheManager.get ⟨false, true, false⟩ ([] : CacheManager.Db Nat) 0 "aors"
      "TRAINING").fst = none ∧
    (CacheManager.set ⟨false, false, true⟩ ([] : CacheManager.Db Nat) 0 "aors" 42
      "TRAINING" "data").fst = false := by
  exact ⟨(cache_failsoft ⟨true, false, false⟩ [] 0 "aors" "TRAINING" "data" 42).1
      (Or.inl rfl),
    (cache_failsoft ⟨false, true, false⟩ [] 0 "aors" "TRAINING" "data" 42).1
      (Or.inr rfl),
    (cache_failsoft ⟨false, false, true⟩ [] 0 "aors" "TRAINING" "data" 42).2
      (Or.inr rfl)⟩

/-- C9: whenever the manager is not ready (`isReady()` false because some
required dataset key is unset or empty), every dropdown derivation entry
point returns the empty option list; in the model the functions are total,
so no failure can propagate. -/
theorem dropdown_options_empty_when_not_ready (dm : TrainingDataManager)
    (sa so st si sl : Selection) (h : dm.isReady = false) :
    TrainingDropdownHandlers.getAorOptions dm = [] ∧
    TrainingDropdownHandlers.getOfficeOptions sa dm = [] ∧
    TrainingDropdownHandlers.getTopicOptions sa so dm = [] ∧
    TrainingDropdownHandlers.getInstructorOptions sa so dm = [] ∧
    TrainingDropdownHandlers.getLocationOptions sa so st si dm = [] ∧
    TrainingDropdownHandlers.getClassOptions sa so si sl st dm = [] := by
  refine ⟨?_, ?_, ?_, ?_, ?_, ?_⟩ <;>
    simp [TrainingDropdownHandlers.getAorOptions,
      TrainingDropdownHandlers.getOfficeOptions,
      TrainingDropdownHandlers.getTopicOptions,
      TrainingDropdownHandlers.getInstructorOptions,
      TrainingDropdownHandlers.getLocationOptions,
      TrainingDropdownHandlers.getClassOptions, h]

/-- Witness for C9 on the unloaded manager. -/
theorem dropdown_options_empty_when_not_ready_witness :
    TrainingDataManager.isReady dmEmpty = false ∧
    TrainingDropdownHandlers.getAorOptions dmEmpty = [] ∧
    TrainingDropdownHandlers.getClassOptions none none none none none dmEmpty = [] := by
  have h := dropdown_options_empty_when_not_ready dmEmpty none none none none none
    (by decide)
  exact ⟨by decide, h.1, h.2.2.2.2.2⟩

/-- C10: an empty reachable-ID set disables the reachability filter for
instructors and locations (the whole dimension table comes back), while
`getFilteredTopics` returns the empty collection in the same situation. -/
theorem empty_reachable_set_behavior (dm : TrainingDataManager)
    (sa so st si : Selection) :
    (FilterUtils.getUniqueIds
        (TrainingFilterUtils.filterByOffices
          (TrainingFilterUtils.filterByAors (dm.getData "attendance_stats") sa) so)
        Row.InstructorId = [] →
      dm.getFilteredInstructors sa so = dm.getData "instructors") ∧
    (FilterUtils.getUniqueIds
        (TrainingFilterUtils.filterByInstructors
          (TrainingFilterUtils.filterByTopics
            (TrainingFilterUtils.filterByOffices
              (TrainingFilterUtils.filterByAors (dm.getData "attendance_stats") sa)
              so)
            st)
          si)
        Row.LocationId = [] →
      dm.getFilteredLocations sa so st si = dm.getData "locations") ∧
    (FilterUtils.getUniqueIds
        (TrainingFilterUtils.filterByOffices
          (TrainingFilterUtils.filterByAors (dm.getData "request_stats") sa) so)
        Row.TrainingTopicId = [] →
      FilterUtils.getUniqueIds
        (TrainingFilterUtils.filterByOffices
          (TrainingFilterUtils.filterByAors (dm.getData "attendance_stats") sa) so)
        Row.TrainingTopicId = [] →
      dm.getFilteredTopics sa so = []) := by
  refine ⟨?_, ?_, ?_⟩
  · intro h
    simp [TrainingDataManager.getFilteredInstructors, h]
  · intro h
    simp [TrainingDataManager.getFilteredLocations, h]
  · intro h1 h2
    simp [TrainingDataManager.getFilteredTopics, h1, h2]

/-- Witness for C10 on a manager whose stat tables are empty but whose
dimension tables are not. -/
theorem empty_reachable_set_behavior_witness :
    dmNoStats.getFilteredInstructors none none = dmNoStats.getData "instructors" ∧
    dmNoStats.getFilteredLocations none none none none = dmNoStats.getData "locations" ∧
    dmNoStats.getFilteredTopics none none = [] ∧
    ¬(dmNoStats.getData "instructors" = []) ∧ ¬(dmNoStats.getData "topics" = []) := by
  have h := empty_reachable_set_behavior dmNoStats none none none none
  exact ⟨h.1 (by decide), h.2.1 (by decide), h.2.2 (by decide) (by decide),
    by decide, by decide⟩

theorem foldl_add_eq_sum (l : List Row) (f : Row → Int) (a : Int) :
    l.foldl (fun s r => s + f r) a = a + (l.map f).sum := by
  induction l generalizing a with
  | nil => simp
  | cons h t ih => simp [ih, add_assoc]

/-- C6: `calculateMetrics` returns the class row count; the sum of the
`TotalAttendances` column when it is present (row-count fallback when
absent); the same for `TotalRequests`; and the number of distinct `MemberID`
values among active members (a `Finset` cardinality, not the row count).
Column presence is probed on the first row, so the present/absent
hypotheses quantify over the whole table. -/
theorem calculateMetrics_spec (classes att req am : List Row) :
    (TrainingSummaryUtils.calculateMetrics (some classes) (some att) (some req)
        (some am)).totalClasses = classes.length ∧
    ((∀ r ∈ att, ¬(r.TotalAttendances = .undef)) →
      (TrainingSummaryUtils.calculateMetrics (some classes) (some att) (some req)
          (some am)).totalAttendances =
        (att.map fun r => TrainingSummaryUtils.jsParseIntOr0 r.TotalAttendances).sum) ∧
    ((∀ r ∈ att, r.TotalAttendances = .undef) →
      (TrainingSummaryUtils.calculateMetrics (some classes) (some att) (some req)
          (some am)).totalAttendances = att.length) ∧
    ((∀ r ∈ req, ¬(r.TotalRequests = .undef)) →
      (TrainingSummaryUtils.calculateMetrics (some classes) (some att) (some req)
          (some am)).totalRequests =
        (req.map fun r => TrainingSummaryUtils.jsParseIntOr0 r.TotalRequests).sum) ∧
    ((∀ r ∈ req, r.TotalRequests = .undef) →
      (TrainingSummaryUtils.calculateMetrics (some classes) (some att) (some req)
          (some am)).totalRequests = req.length) ∧
    (TrainingSummaryUtils.calculateMetrics (some classes) (some att) (some req)
        (some am)).activeMembers = (am.map Row.MemberID).toFinset.card := by
  refine ⟨rfl, ?_, ?_, ?_, ?_, ?_⟩
  · intro hp
    cases att with
    | nil => simp [TrainingSummaryUtils.calculateMetrics]
    | cons h t =>
      have h0 : ¬(h.TotalAttendances = .undef) := hp h (by simp)
      simp [TrainingSummaryUtils.calculateMetrics, h0, foldl_add_eq_sum]
  · intro hab
    cases att with
    | nil => simp [TrainingSummaryUtils.calculateMetrics]
    | cons h t =>
      have h0 : h.TotalAttendances = .undef := hab h (by simp)
      simp [TrainingSummaryUtils.calculateMetrics, h0]
  · intro hp
    cases req with
    | nil => simp [TrainingSummaryUtils.calculateMetrics]
    | cons h t =>
      have h0 : ¬(h.TotalRequests = .undef) := hp h (by simp)
      simp [TrainingSummaryUtils.calculateMetrics, h0, foldl_add_eq_sum]
  · intro hab
    cases req with
    | nil => simp [TrainingSummaryUtils.calculateMetrics]
    | cons h t =>
      have h0 : h.TotalRequests = .undef := hab h (by simp)
      simp [TrainingSummaryUtils.calculateMetrics, h0]
  · simp [TrainingSummaryUtils.calculateMetrics, List.card_toFinset]

/-- Witness for C6: attendance sums its counter column, requests without the
column fall back to row count, members are counted distinctly. -/
theorem calculateMetrics_spec_witness :
    (TrainingSummaryUtils.calculateMetrics (some [classEast])
        (some [{ TotalAttendances := .num 5 }, { TotalAttendances := .num 7 }])
        (some [{ AorShortName := .str "E" }])
        (some [{ MemberID := .num 1 }, { MemberID := .num 1 },
          { MemberID := .num 2 }])).totalAttendances =
      (([({ TotalAttendances := .num 5 } : Row),
          ({ TotalAttendances := .num 7 } : Row)] : List Row).map fun r =>
        TrainingSummaryUtils.jsParseIntOr0 r.TotalAttendances).sum ∧
    (TrainingSummaryUtils.calculateMetrics (some [classEast])
        (some [{ TotalAttendances := .num 5 }, { TotalAttendances := .num 7 }])
        (some [{ AorShortName := .str "E" }])
        (some [{ MemberID := .num 1 }, { MemberID := .num 1 },
          { MemberID := .num 2 }])).totalRequests =
      ([({ AorShortName := .str "E" } : Row)] : List Row).length ∧
    TrainingSummaryUtils.calculateMetrics (some [classEast])
        (some [{ TotalAttendances := .num 5 }, { TotalAttendances := .num 7 }])
        (some [{ AorShortName := .str "E" }])
        (some [{ MemberID := .num 1 }, { MemberID := .num 1 },
          { MemberID := .num 2 }]) =
      { totalClasses := 1, totalAttendances := 12, totalRequests := 1,
        activeMembers := 2 } := by
  have h := calculateMetrics_spec [classEast]
    [{ TotalAttendances := .num 5 }, { TotalAttendances := .num 7 }]
    [{ AorShortName := .str "E" }]
    [{ MemberID := .num 1 }, { MemberID := .num 1 }, { MemberID := .num 2 }]
  exact ⟨h.2.1 (by decide), h.2.2.2.2.1 (by decide), by decide⟩

theorem contains_map_str (l : List String) (v : JSVal) :
    (l.map JSVal.str).contains v = JSVal.memStr l v := by
  cases v with
  | undef => simp [JSVal.memStr, List.elem_iff]
  | str s => simp [JSVal.memStr, List.elem_iff]
  | num n => simp [JSVal.memStr, List.elem_iff]

/-- C7 counterexample: with AORs selected (EAST) but no offices, and an
office table holding no office under EAST, the derived office-code set is
empty; the claim then demands exactly the members whose office is in that
(empty) set — i.e. none — but `filterActiveMembers` applies no filtering and
returns every member. -/
theorem filterActiveMembers_counterexample :
    TrainingSummaryUtils.filterActiveMembers (some [memberM1]) (some [officeWest])
        (some { AORs := some "'EAST'", Offices := none }) = [memberM1] ∧
    ([officeWest].filter fun o =>
      JSVal.memStr (TrainingSummaryUtils.parseFilterList "'EAST'")
        o.AorShortName) = [] ∧
    ¬(([] : List Row) = [memberM1]) := by
  decide

/-- C7 amended: explicit offices win and filter members by office code; an
AOR selection is resolved through the office table to a (deduplicated) set
of office codes and filters members by it *when that set is non-empty*;
when the derived set is empty — or no office/AOR filter is active — no
filtering is applied and all members are returned. -/
theorem filterActiveMembers_spec (members offs : List Row)
    (sel : TrainingSummaryUtils.QuerySelections) :
    (¬(TrainingSummaryUtils.parseFilterList (sel.Offices.getD "") = []) →
      TrainingSummaryUtils.filterActiveMembers (some members) (some offs) (some sel) =
        members.filter fun m =>
          JSVal.memStr (TrainingSummaryUtils.parseFilterList (sel.Offices.getD ""))
            m.OfficeCode) ∧
    (TrainingSummaryUtils.parseFilterList (sel.Offices.getD "") = [] →
      ¬(TrainingSummaryUtils.parseFilterList (sel.AORs.getD "") = []) →
      ¬(((offs.filter fun o =>
          JSVal.memStr (TrainingSummaryUtils.parseFilterList (sel.AORs.getD ""))
            o.AorShortName).map Row.OfficeCode) = []) →
      TrainingSummaryUtils.filterActiveMembers (some members) (some offs) (some sel) =
        members.filter fun m =>
          ((offs.filter fun o =>
            JSVal.memStr (TrainingSummaryUtils.parseFilterList (sel.AORs.getD ""))
              o.AorShortName).map Row.OfficeCode).contains m.OfficeCode) ∧
    (TrainingSummaryUtils.parseFilterList (sel.Offices.getD "") = [] →
      ¬(TrainingSummaryUtils.parseFilterList (sel.AORs.getD "") = []) →
      ((offs.filter fun o =>
          JSVal.memStr (TrainingSummaryUtils.parseFilterList (sel.AORs.getD ""))
            o.AorShortName).map Row.OfficeCode) = [] →
      TrainingSummaryUtils.filterActiveMembers (some members) (some offs) (some sel) =
        members) ∧
    (TrainingSummaryUtils.parseFilterList (sel.Offices.getD "") = [] →
      TrainingSummaryUtils.parseFilterList (sel.AORs.getD "") = [] →
      TrainingSummaryUtils.filterActiveMembers (some members) (some offs) (some sel) =
        members) := by
  refine ⟨?_, ?_, ?_, ?_⟩
  · intro h1
    have hl : 0 < (TrainingSummaryUtils.parseFilterList (sel.Offices.getD "")).length :=
      List.length_pos.mpr h1
    simp only [TrainingSummaryUtils.filterActiveMembers]
    rw [if_pos hl, if_pos (by simpa using hl)]
    exact List.filter_congr fun m _ => contains_map_str _ _
  · intro h1 h2 h3
    have hno : ¬(0 < (TrainingSummaryUtils.parseFilterList (sel.Offices.getD "")).length) := by
      simp [h1]
    have hya : 0 < (TrainingSummaryUtils.parseFilterList (sel.AORs.getD "")).length :=
      List.length_pos.mpr h2
    simp only [TrainingSummaryUtils.filterActiveMembers]
    rw [if_neg hno, if_pos hya]
    have hd : ¬(((offs.filter fun o =>
        JSVal.memStr (TrainingSummaryUtils.parseFilterList (sel.AORs.getD ""))
          o.AorShortName).map Row.OfficeCode).dedup = []) :=
      fun hcontra => h3 ((List.dedup_eq_nil _).mp hcontra)
    rw [if_pos (List.length_pos.mpr hd)]
    exact List.filter_congr fun m _ => dedup_contains _ _
  · intro h1 h2 h3
    have hno : ¬(0 < (TrainingSummaryUtils.parseFilterList (sel.Offices.getD "")).length) := by
      simp [h1]
    have hya : 0 < (TrainingSummaryUtils.parseFilterList (sel.AORs.getD "")).length :=
      List.length_pos.mpr h2
    have hz : ¬(0 < (((offs.filter fun o =>
        JSVal.memStr (TrainingSummaryUtils.parseFilterList (sel.AORs.getD ""))
          o.AorShortName).map Row.OfficeCode).dedup).length) := by
      simp [h3]
    simp only [TrainingSummaryUtils.filterActiveMembers]
    rw [if_neg hno, if_pos hya, if_neg hz]
  · intro h1 h2
    have hno : ¬(0 < (TrainingSummaryUtils.parseFilterList (sel.Offices.getD "")).length) := by
      simp [h1]
    have hna : ¬(0 < (TrainingSummaryUtils.parseFilterList (sel.AORs.getD "")).length) := by
      simp [h2]
    simp only [TrainingSummaryUtils.filterActiveMembers]
    rw [if_neg hno, if_neg hna]
    simp

/-- Witness for the amended C7: an explicit office selection filters the
members; an AOR selection resolving to no offices leaves them unfiltered. -/
theorem filterActiveMembers_spec_witness :
    TrainingSummaryUtils.filterActiveMembers (some [memberM1]) (some [officeWest])
        (some { AORs := none, Offices := some "'M1'" }) =
      [memberM1].filter (fun m =>
        JSVal.memStr (TrainingSummaryUtils.parseFilterList "'M1'") m.OfficeCode) ∧
    TrainingSummaryUtils.filterActiveMembers (some [memberM1]) (some [officeWest])
        (some { AORs := some "'EAST'", Offices := none }) = [memberM1] := by
  refine ⟨?_, ?_⟩
  · exact (filterActiveMembers_spec [memberM1] [officeWest]
      { AORs := none, Offices := some "'M1'" }).1 (by decide)
  · exact (filterActiveMembers_spec [memberM1] [officeWest]
      { AORs := some "'EAST'", Offices := none }).2.2.1 (by decide) (by decide)
      (by decide)

theorem foldl_objSet_lookup (g : String → Option (List Row)) (L : List String)
    (acc : String → Option (List Row)) (key : String) :
    (L.foldl (fun results k =>
        match g k with
        | some v => DataManager.objSet results k v
        | none => results) acc) key =
      if key ∈ L then (g key).or (acc key) else acc key := by
  induction L generalizing acc with
  | nil => simp
  | cons a t ih =>
    simp only [List.foldl_cons]
    rw [ih]
    have hstep : (match g a with
        | some v => DataManager.objSet acc a v
        | none => acc) key =
        if key = a then (g a).or (acc key) else acc key := by
      cases hp : g a with
      | none => by_cases hka : key = a <;> simp [hka, Option.or]
      | some v => by_cases hka : key = a <;> simp [hka, DataManager.objSet, Option.or]
    simp only [hstep]
    by_cases hka : key = a
    · subst hka
      by_cases hkt : key ∈ t <;>
        · cases hg : g key <;> simp [hkt, hg, Option.or, List.mem_cons]
    · by_cases hkt : key ∈ t <;> simp [hka, hkt, List.mem_cons]

theorem foldl_prod_split {α β γ : Type} (f : α → γ → α) (g : β → γ → β)
    (L : List γ) (a : α) (b : β) :
    (L.foldl (fun p x => (f p.fst x, g p.snd x)) (a, b)) =
      (L.foldl f a, L.foldl g b) := by
  induction L generalizing a b with
  | nil => rfl
  | cons x t ih => simp [List.foldl_cons, ih]

theorem foldl_append_eq_filterMap {γ δ : Type} (h : γ → Option (List Row))
    (e : γ → List Row → δ) (L : List γ) (w0 : List δ) :
    (L.foldl (fun w k =>
        match h k with
        | some v => w ++ [e k v]
        | none => w) w0) =
      w0 ++ L.filterMap (fun k => (h k).map (e k)) := by
  induction L generalizing w0 with
  | nil => simp
  | cons a t ih =>
    simp only [List.foldl_cons, List.filterMap_cons]
    cases hp : h a with
    | none => simp [ih]
    | some v => simp [ih]

theorem DataManager.cacheStep_eq (cmGet : String → String → Option (List Row))
    (dashboardName : String) (useSharedCache : Bool) (isSharedData : String → Bool)
    (results : String → Option (List Row)) (key : String) :
    DataManager.cacheStep cmGet dashboardName useSharedCache isSharedData results key =
      match nonEmptyContent
          (DataManager.cacheProbe cmGet dashboardName useSharedCache isSharedData key) with
      | some v => DataManager.objSet results key v
      | none => results := by
  unfold DataManager.cacheStep
  cases hp : DataManager.cacheProbe cmGet dashboardName useSharedCache isSharedData key with
  | none => simp [nonEmptyContent]
  | some c => by_cases hl : 0 < c.length <;> simp [nonEmptyContent, hl]

theorem DataManager.serverStep_eq (dashboardName : String)
    (isSharedData : String → Bool) (sd : String → Option (List Row))
    (st : (String → Option (List Row)) × List (String × String × List Row))
    (key : String) :
    DataManager.serverStep dashboardName isSharedData sd st key =
      ((match nonEmptyContent (sd key) with
        | some v => DataManager.objSet st.fst key v
        | none => st.fst),
       (match nonEmptyContent (sd key) with
        | some v =>
          st.snd ++ [(key, if isSharedData key then "SHARED" else dashboardName, v)]
        | none => st.snd)) := by
  unfold DataManager.serverStep
  cases hp : sd key with
  | none => simp [nonEmptyContent]
  | some v => by_cases hl : 0 < v.length <;> simp [nonEmptyContent, hl]

theorem foldl_serverStep_split (dashboardName : String) (isSharedData : String → Bool)
    (sd : String → Option (List Row)) (L : List String)
    (a : String → Option (List Row)) (b : List (String × String × List Row)) :
    L.foldl (DataManager.serverStep dashboardName isSharedData sd) (a, b) =
      (L.foldl (fun r x =>
          match nonEmptyContent (sd x) with
          | some v => DataManager.objSet r x v
          | none => r) a,
       L.foldl (fun w x =>
          match nonEmptyContent (sd x) with
          | some v => w ++ [(x, if isSharedData x then "SHARED" else dashboardName, v)]
          | none => w) b) := by
  induction L generalizing a b with
  | nil => rfl
  | cons x t ih =>
    simp only [List.foldl_cons, DataManager.serverStep_eq]
    rw [ih]

theorem foldl_cacheStep_lookup (cmGet : String → String → Option (List Row))
    (dashboardName : String) (useSharedCache : Bool) (isSharedData : String → Bool)
    (L : List String) (acc : String → Option (List Row)) (key : String) :
    (L.foldl (DataManager.cacheStep cmGet dashboardName useSharedCache isSharedData)
        acc) key =
      if key ∈ L then
        (nonEmptyContent
          (DataManager.cacheProbe cmGet dashboardName useSharedCache isSharedData
            key)).or (acc key)
      else acc key := by
  have hext :
      L.foldl (DataManager.cacheStep cmGet dashboardName useSharedCache isSharedData)
          acc =
        L.foldl (fun results k =>
          match nonEmptyContent
              (DataManager.cacheProbe cmGet dashboardName useSharedCache isSharedData
                k) with
          | some v => DataManager.objSet results k v
          | none => results) acc :=
    List.foldl_ext _ _ acc fun a x _ =>
      DataManager.cacheStep_eq cmGet dashboardName useSharedCache isSharedData a x
  rw [hext,
    foldl_objSet_lookup (fun k =>
      nonEmptyContent
        (DataManager.cacheProbe cmGet dashboardName useSharedCache isSharedData k))]

/-- C5 amended: during `loadAllData` the dashboard-namespace cache is probed
first and the shared namespace only as a fallback for shared-flagged keys,
but a key's value from the bulk payload, whenever the payload supplies
non-empty content for it, is ALWAYS adopted — overwriting any cache-sourced
value — and written through to the cache (shared namespace for shared keys,
else the dashboard namespace); the cache-sourced value survives only for
keys the payload does not supply non-empty content for; a key neither
cached nor supplied stays unset. -/
theorem loadAllData_spec (cmGet : String → String → Option (List Row))
    (dataKeys : List String) (dashboardName : String) (isSharedData : String → Bool)
    (sd : String → Option (List Row)) (useSharedCache : Bool) (key : String) :
    ((DataManager.loadAllData cmGet dataKeys dashboardName isSharedData (some sd)
        useSharedCache).fst key =
      if key ∈ dataKeys then
        (nonEmptyContent (sd key)).or
          (nonEmptyContent
            (DataManager.cacheProbe cmGet dashboardName useSharedCache isSharedData
              key))
      else none) ∧
    (DataManager.loadAllData cmGet dataKeys dashboardName isSharedData (some sd)
        useSharedCache).snd =
      dataKeys.filterMap fun k =>
        (nonEmptyContent (sd k)).map fun v =>
          (k, if isSharedData k then "SHARED" else dashboardName, v) := by
  have hred : DataManager.loadAllData cmGet dataKeys dashboardName isSharedData
      (some sd) useSharedCache =
      dataKeys.foldl (DataManager.serverStep dashboardName isSharedData sd)
        (dataKeys.foldl
          (DataManager.cacheStep cmGet dashboardName useSharedCache isSharedData)
          (fun _ => none), []) := rfl
  rw [hred, foldl_serverStep_split]
  constructor
  · dsimp only
    rw [foldl_objSet_lookup (fun k => nonEmptyContent (sd k)),
      foldl_cacheStep_lookup]
    by_cases h : key ∈ dataKeys <;> simp [h, Option.or_none]
  · dsimp only
    rw [foldl_append_eq_filterMap (fun k => nonEmptyContent (sd k))
      (fun k v => (k, if isSharedData k then "SHARED" else dashboardName, v))]
    simp

/-- C5 counterexample: the key `aors` is already available from the
dashboard-namespace cache (`[aorEast]`), yet the bulk payload's different
non-empty value `[aorWest]` is adopted into the results and written through
to the cache — refuting "adopted and written through to the cache only if
the key is still missing after the cache lookups". -/
theorem loadAllData_counterexample :
    cmGetFixture "aors" "TRAINING" = some [aorEast] ∧
    (DataManager.loadAllData cmGetFixture ["aors"] "TRAINING" (fun _ => false)
        (some serverFixture) true).fst "aors" = some [aorWest] ∧
    (DataManager.loadAllData cmGetFixture ["aors"] "TRAINING" (fun _ => false)
        (some serverFixture) true).snd = [("aors", "TRAINING", [aorWest])] ∧
    ¬(aorWest = aorEast) := by
  decide
